import Mathlib

/-!
Verification of the render-job orchestrator surface of the storyboard
repository: the dashboard render page handlers and monitor guards
(`RendersPage.tsx`, `EvidenceUploader.tsx`), the `getRenders` response
transform (`rendersApi.ts`), and the queue-side components that the spec
describes (validator, determinism manager, retry controller, progress
tracker).
-/

/-- Render status values of the dashboard page job model
(`'queued' | 'rendering' | 'completed' | 'failed' | 'cancelled'` in
`RenderProgressMonitor`'s `RenderJob` interface). `rendering` is the
page-level name for the spec's PROCESSING. -/
inductive PageStatus where
  | queued
  | rendering
  | completed
  | failed
  | cancelled
deriving DecidableEq, Repr

/-- The local render-job shape used by `RendersPage.tsx` state and the
`RenderProgressMonitor` component embedded in `EvidenceUploader.tsx`.
Optional TS fields become `Option`; `startTime` dates are kept as their
source strings. -/
structure PageJob where
  id : String
  caseId : String
  profile : String
  status : PageStatus
  progress : Nat
  startTime : String
  framesRendered : Nat
  totalFrames : Nat
  renderTime : Nat
  queuePosition : Option Nat
  error : Option String
  resultPath : Option String
  checksum : Option String
deriving DecidableEq, Repr

/-- The first entry of the `useState` initializer in `RendersPage.tsx`
(`render-001`, rendering, 65%). -/
def render001 : PageJob :=
  { id := "render-001", caseId := "case-001", profile := "neutral",
    status := PageStatus.rendering, progress := 65,
    startTime := "2024-01-20T10:00:00", framesRendered := 130,
    totalFrames := 200, renderTime := 1800, queuePosition := none,
    error := none, resultPath := none, checksum := none }

/-- The second entry of the `useState` initializer in `RendersPage.tsx`
(`render-002`, completed, with a checksum). -/
def render002 : PageJob :=
  { id := "render-002", caseId := "case-002", profile := "cinematic",
    status := PageStatus.completed, progress := 100,
    startTime := "2024-01-19T14:30:00", framesRendered := 300,
    totalFrames := 300, renderTime := 3600, queuePosition := none,
    error := none, resultPath := some "/renders/render-002.mp4",
    checksum := some "a1b2c3d4e5f6..." }

/-- The third entry of the `useState` initializer in `RendersPage.tsx`
(`render-003`, queued at position 2). -/
def render003 : PageJob :=
  { id := "render-003", caseId := "case-003", profile := "neutral",
    status := PageStatus.queued, progress := 0,
    startTime := "2024-01-20T15:00:00", framesRendered := 0,
    totalFrames := 150, renderTime := 0, queuePosition := some 2,
    error := none, resultPath := none, checksum := none }

/-- The initial `renderJobs` state of `RendersPage.tsx`. -/
def initialRenderJobs : List PageJob := [render001, render002, render003]

/-- The arrow function inside `handleCancelJob` of `RendersPage.tsx`:
`job.id === jobId ? { ...job, status: 'cancelled', queuePosition:
undefined } : job`. -/
def cancelOne (jobId : String) (job : PageJob) : PageJob :=
  if job.id = jobId then
    { job with status := PageStatus.cancelled, queuePosition := none }
  else job

/-- `handleCancelJob` from `RendersPage.tsx`: maps `cancelOne` over the
previous job list. -/
def handleCancelJob (jobId : String) (jobs : List PageJob) : List PageJob :=
  jobs.map (cancelOne jobId)

/-- The arrow function inside `handleRetryJob` of `RendersPage.tsx`:
`job.id === jobId ? { ...job, status: 'queued', progress: 0, error:
undefined, queuePosition: 1 } : job`. -/
def retryOne (jobId : String) (job : PageJob) : PageJob :=
  if job.id = jobId then
    { job with status := PageStatus.queued, progress := 0,
               error := none, queuePosition := some 1 }
  else job

/-- `handleRetryJob` from `RendersPage.tsx`: maps `retryOne` over the
previous job list. -/
def handleRetryJob (jobId : String) (jobs : List PageJob) : List PageJob :=
  jobs.map (retryOne jobId)

/-- The retry pathway of the `RenderProgressMonitor` component in
`EvidenceUploader.tsx`: the Retry button is rendered for a job row only
when `job.status === 'failed'`, and clicking it calls `onRetryJob(job.id)`
(which `RendersPage` binds to `handleRetryJob`). Row `i` of the list is
the job whose button is clicked; a row without a failed job triggers
nothing. -/
def monitorRetryRow (jobs : List PageJob) (i : Nat) : List PageJob :=
  match jobs[i]? with
  | some j =>
      if j.status = PageStatus.failed then handleRetryJob j.id jobs else jobs
  | none => jobs

/-- Backend job status values (`'queued' | 'processing' | 'completed' |
'failed' | 'cancelled'` in the `RenderJob` interface of `rendersApi.ts`
and the spec's state machine). -/
inductive JobStatus where
  | queued
  | processing
  | completed
  | failed
  | cancelled
deriving DecidableEq, Repr

/-- Failure classes of the RetryController
(spec section 4.4): transient (timeout, resource exhaustion) or permanent
(malformed scene, missing asset, policy violation). -/
inductive FailureKind where
  | transient
  | permanent
deriving DecidableEq, Repr

/-- Modelled from the spec: the orchestrator-side job record fields the
RetryController and RetryRender touch — the orchestrator source is not
under src/, only its dashboard callers are. Carries status, the retry
counters and the queue priority. -/
structure OrchJob where
  status : JobStatus
  retry_count : Nat
  max_retries : Nat
  priority : Nat
deriving DecidableEq, Repr

/-- Modelled from the spec: the RetryController's reaction to an executor
failure (section 4.4) — the RetryController source is not under src/.
Transient failures with retries remaining increment `retry_count` and
re-enqueue at the original priority; a transient failure with retries
exhausted, or a permanent failure, is terminal FAILED with `retry_count`
unchanged (the invariant of section 3 keeps `retry_count` within
`max_retries`). -/
def handleFailure (j : OrchJob) (k : FailureKind) : OrchJob :=
  match k with
  | FailureKind.transient =>
      if j.retry_count < j.max_retries then
        { j with status := JobStatus.queued,
                 retry_count := j.retry_count + 1 }
      else
        { j with status := JobStatus.failed }
  | FailureKind.permanent => { j with status := JobStatus.failed }

/-- Modelled from the spec: the `RetryRender(job_id)` backend operation
(section 6) — its source is not under src/, only the dashboard `POST
/{id}/retry` caller is. It re-enqueues a terminal FAILED job and
preserves the historical `retry_count`; on any other status it does
nothing. -/
def retryRenderOp (j : OrchJob) : OrchJob :=
  if j.status = JobStatus.failed then { j with status := JobStatus.queued }
  else j

/-- Modelled from the spec: the ProgressTracker's view of a job — the
ProgressTracker source is not under src/. -/
structure ProgJob where
  frames_rendered : Nat
  total_frames : Nat
  progress_percentage : Nat
deriving DecidableEq, Repr

/-- Modelled from the spec: one frame-completion callback (section 4.5):
`frames_rendered = max(current, reported)` and `progress_percentage`
recomputed from it. -/
def applyCallback (j : ProgJob) (reported : Nat) : ProgJob :=
  { j with
    frames_rendered := max j.frames_rendered reported,
    progress_percentage :=
      if j.total_frames = 0 then 0
      else max j.frames_rendered reported * 100 / j.total_frames }

/-- Modelled from the spec: a whole sequence of frame-completion
callbacks, possibly duplicated or out of order, folded into the job. -/
def applyCallbacks (j : ProgJob) (reports : List Nat) : ProgJob :=
  reports.foldl applyCallback j

/-- Case modes (spec glossary): SANDBOX is experimental, DEMONSTRATIVE is
court-admissible and forbids the cinematic profile. -/
inductive CaseMode where
  | sandbox
  | demonstrative
deriving DecidableEq, Repr

/-- Render profiles (spec glossary): NEUTRAL or CINEMATIC. -/
inductive RenderProfile where
  | neutral
  | cinematic
deriving DecidableEq, Repr

/-- Validation failures of the RenderRequestValidator (spec sections 4.1
and 7). -/
inductive VError where
  | modeProfileViolation
  | boundsViolation
  | emptyFrames
deriving DecidableEq, Repr

/-- Modelled from the spec: the fields of a creation request the
validator consults (section 4.1 and the `CreateRenderRequest` interface). -/
structure CreateReq where
  profile : RenderProfile
  width : Nat
  height : Nat
  fps : Nat
  total_frames : Nat
deriving DecidableEq, Repr

/-- Modelled from the spec: configured upper bound on render width. -/
def maxWidth : Nat := 3840

/-- Modelled from the spec: configured upper bound on render height. -/
def maxHeight : Nat := 2160

/-- Modelled from the spec: configured upper bound on frames per second. -/
def maxFps : Nat := 60

/-- Modelled from the spec: the RenderRequestValidator (section 4.1) —
its source is not under src/, only the dashboard `createRender` POST is.
Checks profile/mode compatibility, then resolution and fps bounds, then
`total_frames > 0`; any violation is a synchronous `ValidationError`. -/
def validateRequest (req : CreateReq) (mode : CaseMode) :
    Except VError CreateReq :=
  if mode = CaseMode.demonstrative ∧ req.profile = RenderProfile.cinematic
  then Except.error VError.modeProfileViolation
  else if req.width = 0 ∨ maxWidth < req.width ∨ req.height = 0 ∨
          maxHeight < req.height ∨ req.fps = 0 ∨ maxFps < req.fps
  then Except.error VError.boundsViolation
  else if req.total_frames = 0 then Except.error VError.emptyFrames
  else Except.ok req

/-- Modelled from the spec: `CreateRenderRequest` admission (sections 4.1
and 6): validate first, and only an accepted request is enqueued; a
rejected request surfaces the error with the queue untouched. -/
def createRenderOp (req : CreateReq) (mode : CaseMode)
    (queue : List CreateReq) : Except VError CreateReq × List CreateReq :=
  match validateRequest req mode with
  | Except.error e => (Except.error e, queue)
  | Except.ok j => (Except.ok j, queue ++ [j])

/-- Modelled from the spec: the job fields the DeterminismManager and the
external Renderer consume (sections 4.3 and 6) — their sources are not
under src/. The compiled-timeline handle is carried as an opaque byte
sequence `scene`. -/
structure SceneJob where
  case_id : String
  storyboard_id : String
  timeline_id : String
  deterministic : Bool
  seed : Option Nat
  scene : List Nat
deriving DecidableEq, Repr

/-- Modelled from the spec: a deterministic digest of a string, used as a
stand-in for the hash inside `seed = hash(case_id, storyboard_id,
timeline_id)`. -/
def hashStr (s : String) : Nat :=
  s.foldl (fun a c => a * 131 + c.toNat) 7

/-- Modelled from the spec: seed derivation of section 4.3 — identical
`(case_id, storyboard_id, timeline_id)` always reproduce the same seed. -/
def deriveSeed (j : SceneJob) : Nat :=
  (hashStr j.case_id * 1000003 + hashStr j.storyboard_id) * 1009 +
    hashStr j.timeline_id

/-- Modelled from the spec: `assignSeed` of section 4.3 — a deterministic
job keeps its explicit seed or receives the derived one before leaving
QUEUED; a non-deterministic job runs unseeded. -/
def assignSeed (j : SceneJob) : Option Nat :=
  if j.deterministic then some (j.seed.getD (deriveSeed j)) else none

/-- Modelled from the spec: the external Renderer capability
`render(scene, seed, profile) → frames` (section 6), the only component
assumed non-deterministic unless seeded. `entropy` stands for the ambient
nondeterminism of an execution: a seeded run fixes all pseudo-randomness
from the seed and ignores it, an unseeded run does not. -/
def renderFrames (scene : List Nat) (seed : Option Nat) (entropy : Nat) :
    List Nat :=
  match seed with
  | some s => scene.map fun b => (b * 31 + s) % 256
  | none => scene.map fun b => (b * 31 + entropy) % 256

/-- Modelled from the spec: `computeChecksum(frames)` of section 4.3 —
SHA-256 abstracted to a deterministic digest over the frame bytes taken
in strict frame-index order, reduced modulo `2 ^ 256`. -/
def computeChecksum (frames : List Nat) : Nat :=
  frames.foldl (fun a b => (a * 257 + b + 1) % 2 ^ 256) 0

/-- Modelled from the spec: one full execution of a render job — assign
the seed, invoke the Renderer, and checksum the produced frames. -/
def runRender (j : SceneJob) (entropy : Nat) : Nat :=
  computeChecksum (renderFrames j.scene (assignSeed j) entropy)

/-- A backend render record as the dashboard receives it: every field the
`getRenders` `transformResponse` of `rendersApi.ts` reads from the raw
`render : any` item, optional where the backend may omit it. -/
structure BackendRender where
  id : String
  timeline_id : String
  storyboard_id : String
  case_id : String
  status : Option String
  priority : Option Nat
  created_by : String
  created_at : String
  started_at : Option String
  completed_at : Option String
  width : Option Nat
  height : Option Nat
  fps : Option Nat
  quality : Option String
  profile : Option String
  deterministic : Option Bool
  seed : Option Nat
  output_format : Option String
  output_path : Option String
  file_size_bytes : Option Nat
  duration_seconds : Option Nat
  render_time_seconds : Option Nat
  frames_rendered : Option Nat
  total_frames : Option Nat
  progress_percentage : Option Nat
  error_message : Option String
  retry_count : Option Nat
  max_retries : Option Nat
  checksum : Option String
  golden_frame_checksums : Option (List String)
deriving DecidableEq, Repr

/-- The `RenderJob` interface of `rendersApi.ts` (fields produced by
`transformResponse`; `started_at`, `completed_at` and `seed` stay
optional). -/
structure ApiRenderJob where
  id : String
  timeline_id : String
  storyboard_id : String
  case_id : String
  status : String
  priority : Nat
  created_by : String
  created_at : String
  started_at : Option String
  completed_at : Option String
  width : Nat
  height : Nat
  fps : Nat
  quality : String
  profile : String
  deterministic : Bool
  seed : Option Nat
  output_format : String
  output_path : String
  file_size_bytes : Nat
  duration_seconds : Nat
  render_time_seconds : Nat
  frames_rendered : Nat
  total_frames : Nat
  progress_percentage : Nat
  error_message : String
  retry_count : Nat
  max_retries : Nat
  checksum : String
  golden_frame_checksums : List String
deriving DecidableEq, Repr

/-- JavaScript `a || d` on an optional string: a missing or empty string
is falsy and yields the default. -/
def jsOrStr (o : Option String) (d : String) : String :=
  match o with
  | some s => if s = "" then d else s
  | none => d

/-- JavaScript `a || d` on an optional non-negative number: a missing
value or `0` is falsy and yields the default. -/
def jsOrNum (o : Option Nat) (d : Nat) : Nat :=
  match o with
  | some n => if n = 0 then d else n
  | none => d

/-- JavaScript `a || d` on an optional boolean: `false` and a missing
value are falsy and yield the default. -/
def jsOrBool (o : Option Bool) (d : Bool) : Bool :=
  match o with
  | some b => if b then b else d
  | none => d

/-- JavaScript `a || d` on an optional array: any present array, the
empty one included, is truthy. -/
def jsOrList (o : Option (List String)) (d : List String) : List String :=
  match o with
  | some l => l
  | none => d

/-- The element-wise body of `getRenders.transformResponse` in
`rendersApi.ts`: each backend item is mapped to a `RenderJob` with the
literal defaults of the source (`status?.toLowerCase() || 'queued'`,
`deterministic || true`, `checksum || ''`, `max_retries || 3`, ...). -/
def transformRender (r : BackendRender) : ApiRenderJob :=
  { id := r.id,
    timeline_id := r.timeline_id,
    storyboard_id := r.storyboard_id,
    case_id := r.case_id,
    status := jsOrStr (r.status.map String.toLower) "queued",
    priority := jsOrNum r.priority 0,
    created_by := r.created_by,
    created_at := r.created_at,
    started_at := r.started_at,
    completed_at := r.completed_at,
    width := jsOrNum r.width 1920,
    height := jsOrNum r.height 1080,
    fps := jsOrNum r.fps 30,
    quality := jsOrStr (r.quality.map String.toLower) "standard",
    profile := jsOrStr r.profile "neutral",
    deterministic := jsOrBool r.deterministic true,
    seed := r.seed,
    output_format := jsOrStr r.output_format "mp4",
    output_path := jsOrStr r.output_path "",
    file_size_bytes := jsOrNum r.file_size_bytes 0,
    duration_seconds := jsOrNum r.duration_seconds 0,
    render_time_seconds := jsOrNum r.render_time_seconds 0,
    frames_rendered := jsOrNum r.frames_rendered 0,
    total_frames := jsOrNum r.total_frames 0,
    progress_percentage := jsOrNum r.progress_percentage 0,
    error_message := jsOrStr r.error_message "",
    retry_count := jsOrNum r.retry_count 0,
    max_retries := jsOrNum r.max_retries 3,
    checksum := jsOrStr r.checksum "",
    golden_frame_checksums := jsOrList r.golden_frame_checksums [] }

/-- `getRenders.transformResponse` over the whole backend response list. -/
def transformResponse (rs : List BackendRender) : List ApiRenderJob :=
  rs.map transformRender

/-- The `checksum` field is set exactly on COMPLETED jobs (spec section 3
invariant, stated over the page job list). -/
def checksumSetIffCompleted (jobs : List PageJob) : Prop :=
  ∀ j ∈ jobs, (j.checksum.isSome = true ↔ j.status = PageStatus.completed)

instance (jobs : List PageJob) : Decidable (checksumSetIffCompleted jobs) :=
  inferInstanceAs (Decidable (∀ j ∈ jobs,
    j.checksum.isSome = true ↔ j.status = PageStatus.completed))

/-- A concrete deterministic render job, used to instantiate theorems. -/
def sceneJobA : SceneJob :=
  { case_id := "case-001", storyboard_id := "sb-001",
    timeline_id := "tl-001", deterministic := true, seed := some 42,
    scene := [10, 20, 30] }

/-- A concrete DEMONSTRATIVE-mode request asking for the cinematic
profile, used to instantiate theorems. -/
def reqDemoCinematic : CreateReq :=
  { profile := RenderProfile.cinematic, width := 1920, height := 1080,
    fps := 30, total_frames := 10 }

/-- A concrete processing job with retries exhausted, used to instantiate
theorems. -/
def jobExhausted : OrchJob :=
  { status := JobStatus.processing, retry_count := 3, max_retries := 3,
    priority := 5 }

/-- A concrete failed job with one historical retry, used to instantiate
theorems. -/
def jobFailedOnce : OrchJob :=
  { status := JobStatus.failed, retry_count := 1, max_retries := 3,
    priority := 5 }

lemma jsOrBool_default_true (o : Option Bool) : jsOrBool o true = true := by
  cases o with
  | none => rfl
  | some b => cases b <;> rfl

lemma applyCallbacks_frames_le (reports : List Nat) (j : ProgJob) :
    j.frames_rendered ≤ (applyCallbacks j reports).frames_rendered := by
  induction reports generalizing j with
  | nil => exact Nat.le_refl _
  | cons r rs ih =>
      exact Nat.le_trans (Nat.le_max_left _ r) (ih (applyCallback j r))

lemma cancelOne_idem (jobId : String) (j : PageJob) :
    cancelOne jobId (cancelOne jobId j) = cancelOne jobId j := by
  unfold cancelOne
  by_cases h : j.id = jobId <;> simp [h]

/-- C1: for every render job with `deterministic = true` — and hence a
seed fixed either explicitly or derived from its identity — two
independent executions of the same scene, differing arbitrarily in
ambient entropy, produce the same checksum. -/
theorem C1_deterministic_rerender_same_checksum (j : SceneJob)
    (e1 e2 : Nat) (h : j.deterministic = true) :
    runRender j e1 = runRender j e2 := by
  simp [runRender, assignSeed, h, renderFrames]

/-- C1 instantiated: a concrete deterministic job rendered under two
different entropy values yields the same checksum. -/
theorem C1_witness :
    sceneJobA.deterministic = true ∧
    runRender sceneJobA 0 = runRender sceneJobA 12345 :=
  ⟨rfl, C1_deterministic_rerender_same_checksum sceneJobA 0 12345 rfl⟩

/-- C3: a creation request with case mode DEMONSTRATIVE and profile
CINEMATIC fails synchronously with the mode/profile `ValidationError`,
and the queue is left untouched — no job is created. -/
theorem C3_demonstrative_cinematic_rejected (req : CreateReq)
    (mode : CaseMode) (queue : List CreateReq)
    (hm : mode = CaseMode.demonstrative)
    (hp : req.profile = RenderProfile.cinematic) :
    createRenderOp req mode queue =
      (Except.error VError.modeProfileViolation, queue) := by
  simp [createRenderOp, validateRequest, hm, hp]

/-- C3 instantiated: a concrete DEMONSTRATIVE + cinematic request is
rejected with the empty queue unchanged. -/
theorem C3_witness :
    reqDemoCinematic.profile = RenderProfile.cinematic ∧
    createRenderOp reqDemoCinematic CaseMode.demonstrative [] =
      (Except.error VError.modeProfileViolation, []) :=
  ⟨rfl, C3_demonstrative_cinematic_rejected reqDemoCinematic
    CaseMode.demonstrative [] rfl rfl⟩

/-- C5: retrying a terminal FAILED job re-enqueues it (status returns to
QUEUED) preserving (not resetting) the historical `retry_count`; the
operation applies only to FAILED jobs — the backend model leaves every
other status untouched, and the monitor's Retry pathway does nothing on a
row whose job is not failed, while on a failed row it re-queues that job. -/
theorem C5_retry_reenqueues_failed_only (j : OrchJob)
    (hf : j.status = JobStatus.failed) :
    ((retryRenderOp j).status = JobStatus.queued ∧
      (retryRenderOp j).retry_count = j.retry_count ∧
      (retryRenderOp j).max_retries = j.max_retries) ∧
    (∀ j2 : OrchJob, j2.status ≠ JobStatus.failed → retryRenderOp j2 = j2) ∧
    (∀ (jobs : List PageJob) (i : Nat) (jr : PageJob), jobs[i]? = some jr →
      jr.status ≠ PageStatus.failed → monitorRetryRow jobs i = jobs) ∧
    (∀ (jobs : List PageJob) (i : Nat) (jr : PageJob), jobs[i]? = some jr →
      jr.status = PageStatus.failed →
      (monitorRetryRow jobs i)[i]? = some
        { jr with status := PageStatus.queued, progress := 0,
                  error := none, queuePosition := some 1 }) := by
  refine ⟨⟨?_, ?_, ?_⟩, ?_, ?_, ?_⟩
  · simp [retryRenderOp, hf]
  · simp [retryRenderOp, hf]
  · simp [retryRenderOp, hf]
  · intro j2 h2
    simp [retryRenderOp, h2]
  · intro jobs i jr hji hnf
    simp [monitorRetryRow, hji, hnf]
  · intro jobs i jr hji hf2
    simp [monitorRetryRow, hji, hf2, handleRetryJob, List.getElem?_map,
      retryOne]

/-- C5 instantiated: a concrete failed job with `retry_count = 1` is
re-enqueued with its count intact. -/
theorem C5_witness :
    jobFailedOnce.status = JobStatus.failed ∧
    (retryRenderOp jobFailedOnce).status = JobStatus.queued ∧
    (retryRenderOp jobFailedOnce).retry_count = jobFailedOnce.retry_count :=
  ⟨rfl, (C5_retry_reenqueues_failed_only jobFailedOnce rfl).1.1,
    (C5_retry_reenqueues_failed_only jobFailedOnce rfl).1.2.1⟩

/-- C6: starting from `retry_count ≤ max_retries`, a failure keeps the
count within bounds; the outcome is terminal FAILED exactly when the
failure is transient with retries exhausted or is permanent; a permanent
failure leaves `retry_count` unchanged; and a transient failure with
retries remaining re-enqueues at the original priority with the count
incremented. -/
theorem C6_retry_count_within_bounds (j : OrchJob) (k : FailureKind)
    (hle : j.retry_count ≤ j.max_retries) :
    (handleFailure j k).retry_count ≤ (handleFailure j k).max_retries ∧
    ((handleFailure j k).status = JobStatus.failed ↔
      (k = FailureKind.transient ∧ j.retry_count = j.max_retries) ∨
        k = FailureKind.permanent) ∧
    (k = FailureKind.permanent →
      (handleFailure j k).retry_count = j.retry_count) ∧
    (k = FailureKind.transient → j.retry_count < j.max_retries →
      (handleFailure j k).status = JobStatus.queued ∧
      (handleFailure j k).retry_count = j.retry_count + 1 ∧
      (handleFailure j k).priority = j.priority) := by
  cases k with
  | transient =>
      by_cases hlt : j.retry_count < j.max_retries
      · refine ⟨?_, ?_, ?_, ?_⟩
        · simp [handleFailure, hlt]
          omega
        · simp [handleFailure, hlt]
          omega
        · simp
        · intro _ _
          simp [handleFailure, hlt]
      · refine ⟨?_, ?_, ?_, ?_⟩
        · simp [handleFailure, hlt]
          omega
        · simp [handleFailure, hlt]
          omega
        · simp
        · intro _ hlt2
          exact absurd hlt2 hlt
  | permanent =>
      refine ⟨?_, ?_, ?_, ?_⟩
      · simp [handleFailure]
        omega
      · simp [handleFailure]
      · intro _
        simp [handleFailure]
      · simp

/-- C6 instantiated: a transient failure on a job with retries exhausted
(`retry_count = max_retries = 3`) is terminal FAILED. -/
theorem C6_witness :
    jobExhausted.retry_count ≤ jobExhausted.max_retries ∧
    (handleFailure jobExhausted FailureKind.transient).status =
      JobStatus.failed :=
  ⟨by decide,
    (C6_retry_count_within_bounds jobExhausted FailureKind.transient
      (by decide)).2.1.mpr (Or.inl ⟨rfl, rfl⟩)⟩

/-- C8: each frame-completion callback sets `frames_rendered` to
`max(current, reported)`, and over any callback sequence — duplicated or
out-of-order reports included — `frames_rendered` never decreases between
an earlier and a later point of the PROCESSING lifetime. -/
theorem C8_frames_rendered_monotone (j : ProgJob) (r : Nat)
    (rs rs2 : List Nat) :
    (applyCallback j r).frames_rendered = max j.frames_rendered r ∧
    (applyCallbacks j rs).frames_rendered ≤
      (applyCallbacks j (rs ++ rs2)).frames_rendered := by
  constructor
  · rfl
  · unfold applyCallbacks
    rw [List.foldl_append]
    exact applyCallbacks_frames_le rs2 _

/-- C9: the `getRenders` transform presents every job as
`deterministic = true` — `render.deterministic || true` cannot evaluate
to `false`, so even a backend job with `deterministic = false` is shown
as deterministic. -/
theorem C9_transform_forces_deterministic (r : BackendRender) :
    (transformRender r).deterministic = true ∧
    (transformRender { r with deterministic := some false }).deterministic
      = true :=
  ⟨jsOrBool_default_true r.deterministic, rfl⟩

/-- C10: the cancel and retry handlers change at most the job whose id
matches — any list position holding a job with a different id is exactly
preserved. -/
theorem C10_other_jobs_unchanged (jobs : List PageJob) (jobId : String)
    (i : Nat) (j : PageJob) (h : jobs[i]? = some j) (hne : j.id ≠ jobId) :
    (handleCancelJob jobId jobs)[i]? = some j ∧
    (handleRetryJob jobId jobs)[i]? = some j := by
  constructor
  · simp [handleCancelJob, List.getElem?_map, h, cancelOne, hne]
  · simp [handleRetryJob, List.getElem?_map, h, retryOne, hne]

/-- C10 instantiated: cancelling or retrying `render-001` leaves
`render-002` (position 1) untouched. -/
theorem C10_witness :
    initialRenderJobs[1]? = some render002 ∧
    render002.id ≠ "render-001" ∧
    ((handleCancelJob "render-001" initialRenderJobs)[1]? = some render002 ∧
      (handleRetryJob "render-001" initialRenderJobs)[1]? = some render002) :=
  ⟨rfl, by decide,
    C10_other_jobs_unchanged initialRenderJobs "render-001" 1 render002
      rfl (by decide)⟩

/-- C2 counterexample: the claim fails on the code — `render-002` is
COMPLETED, a terminal status, yet `handleCancelJob` moves it to CANCELLED
and `handleRetryJob` moves it to QUEUED, neither of which is an allowed
edge out of COMPLETED. -/
theorem C2_counterexample :
    render002.status = PageStatus.completed ∧
    (handleCancelJob "render-002" initialRenderJobs)[1]? =
      some { render002 with status := PageStatus.cancelled,
                            queuePosition := none } ∧
    (handleRetryJob "render-002" initialRenderJobs)[1]? =
      some { render002 with status := PageStatus.queued, progress := 0,
                            error := none, queuePosition := some 1 } :=
  ⟨rfl, by decide, by decide⟩

/-- C2 amended: the dashboard handlers are unconditional — cancel rewrites
the matching job's status to CANCELLED whatever its previous status
(terminal included) and retry rewrites it to QUEUED, while every
non-matching job is preserved; so the allowed edges
QUEUED|PROCESSING→CANCELLED and FAILED→QUEUED are realized, but terminal
statuses are not protected at the handler level. -/
theorem C2_amended_handlers_unconditional (jobs : List PageJob)
    (jobId : String) (k : Nat) (j : PageJob) (h : jobs[k]? = some j) :
    (handleCancelJob jobId jobs)[k]? = some (cancelOne jobId j) ∧
    (handleRetryJob jobId jobs)[k]? = some (retryOne jobId j) ∧
    (cancelOne jobId j).status =
      (if j.id = jobId then PageStatus.cancelled else j.status) ∧
    (retryOne jobId j).status =
      (if j.id = jobId then PageStatus.queued else j.status) := by
  refine ⟨?_, ?_, ?_, ?_⟩
  · simp [handleCancelJob, List.getElem?_map, h]
  · simp [handleRetryJob, List.getElem?_map, h]
  · unfold cancelOne
    by_cases hid : j.id = jobId <;> simp [hid]
  · unfold retryOne
    by_cases hid : j.id = jobId <;> simp [hid]

/-- C2 amended, instantiated at the completed job `render-002`. -/
theorem C2_witness :
    initialRenderJobs[1]? = some render002 ∧
    (handleCancelJob "render-002" initialRenderJobs)[1]? =
      some (cancelOne "render-002" render002) :=
  ⟨rfl, (C2_amended_handlers_unconditional initialRenderJobs "render-002"
    1 render002 rfl).1⟩

/-- C4 counterexample: cancel is not a no-op on a terminal job — applied
to the COMPLETED job `render-002` it changes the list. -/
theorem C4_counterexample :
    render002.status = PageStatus.completed ∧
    handleCancelJob "render-002" initialRenderJobs ≠ initialRenderJobs :=
  ⟨rfl, by decide⟩

/-- C4 amended: cancel is idempotent — applying it twice yields the same
list as applying it once — and it is a no-op exactly on lists whose
matching jobs are already CANCELLED with no queue position (in particular
when no job matches); on COMPLETED or FAILED jobs it is not a no-op. -/
theorem C4_amended_cancel_idempotent (jobId : String)
    (jobs : List PageJob) :
    handleCancelJob jobId (handleCancelJob jobId jobs) =
      handleCancelJob jobId jobs ∧
    ((∀ j ∈ jobs, j.id = jobId →
        j.status = PageStatus.cancelled ∧ j.queuePosition = none) →
      handleCancelJob jobId jobs = jobs) := by
  constructor
  · unfold handleCancelJob
    rw [List.map_map]
    apply List.map_congr_left
    intro a _
    exact cancelOne_idem jobId a
  · induction jobs with
    | nil =>
        intro _
        rfl
    | cons a t ih =>
        intro hall
        have ha : cancelOne jobId a = a := by
          unfold cancelOne
          by_cases hid : a.id = jobId
          · obtain ⟨h1, h2⟩ := hall a (List.mem_cons_self a t) hid
            cases a
            simp_all
          · simp [hid]
        have ht := ih fun j hj hid => hall j (List.mem_cons_of_mem a hj) hid
        show cancelOne jobId a :: handleCancelJob jobId t = a :: t
        rw [ha, ht]

/-- C4 amended, instantiated: double-cancel of `render-001` equals a
single cancel, and cancelling an id that matches no job is a no-op. -/
theorem C4_witness :
    handleCancelJob "render-001" (handleCancelJob "render-001"
      initialRenderJobs) = handleCancelJob "render-001" initialRenderJobs ∧
    handleCancelJob "render-999" initialRenderJobs = initialRenderJobs :=
  ⟨(C4_amended_cancel_idempotent "render-001" initialRenderJobs).1,
    (C4_amended_cancel_idempotent "render-999" initialRenderJobs).2
      (by decide)⟩

/-- C7 counterexample: the initial job list satisfies "checksum set iff
COMPLETED", but cancelling the COMPLETED job `render-002` keeps its
checksum while setting status CANCELLED, so the invariant fails after
that operation. -/
theorem C7_counterexample :
    checksumSetIffCompleted initialRenderJobs ∧
    ¬ checksumSetIffCompleted
        (handleCancelJob "render-002" initialRenderJobs) :=
  ⟨by decide, by decide⟩

/-- C7 amended: "checksum set iff COMPLETED" holds of the initial list
and is preserved by the cancel and retry handlers whenever the targeted
job is not COMPLETED; cancelling a COMPLETED job breaks it by retaining
the checksum. -/
theorem C7_amended_checksum_iff_completed (jobId : String)
    (jobs : List PageJob) (hinv : checksumSetIffCompleted jobs)
    (hnc : ∀ j ∈ jobs, j.id = jobId → j.status ≠ PageStatus.completed) :
    checksumSetIffCompleted (handleCancelJob jobId jobs) ∧
    checksumSetIffCompleted (handleRetryJob jobId jobs) := by
  constructor
  · intro j' hj'
    rcases List.mem_map.mp hj' with ⟨j, hj, rfl⟩
    unfold cancelOne
    by_cases hid : j.id = jobId
    · have hnotc := hnc j hj hid
      have hiff := hinv j hj
      simp [hid]
      cases hcs : j.checksum with
      | none => rfl
      | some s =>
          rw [hcs] at hiff
          exact absurd (hiff.mp (by simp)) hnotc
    · simp [hid]
      exact hinv j hj
  · intro j' hj'
    rcases List.mem_map.mp hj' with ⟨j, hj, rfl⟩
    unfold retryOne
    by_cases hid : j.id = jobId
    · have hnotc := hnc j hj hid
      have hiff := hinv j hj
      simp [hid]
      cases hcs : j.checksum with
      | none => rfl
      | some s =>
          rw [hcs] at hiff
          exact absurd (hiff.mp (by simp)) hnotc
    · simp [hid]
      exact hinv j hj

/-- C7 amended, instantiated: cancelling or retrying the PROCESSING job
`render-001` preserves the invariant. -/
theorem C7_witness :
    checksumSetIffCompleted initialRenderJobs ∧
    checksumSetIffCompleted (handleCancelJob "render-001"
      initialRenderJobs) ∧
    checksumSetIffCompleted (handleRetryJob "render-001"
      initialRenderJobs) :=
  ⟨by decide,
    (C7_amended_checksum_iff_completed "render-001" initialRenderJobs
      (by decide) (by decide)).1,
    (C7_amended_checksum_iff_completed "render-001" initialRenderJobs
      (by decide) (by decide)).2⟩
